import Mathlib

/-!
# Verification of `calibre-plugin/models.py` (libby-calibre-plugin)

Shallow embedding of the table models in `src/calibre-plugin/models.py`:
`LibbyModel`, `LibbyLoansModel`, `LibbyHoldsModel`, `LibbyCardsModel`,
`LibbyMagazinesModel`, together with the helper `get_media_title` and
`truncate_for_display`.

Modelling conventions:

* JSON-like Python dicts (loans, holds, cards, subscriptions) become the
  `Record` structure, one `Option`-typed field per key the code reads.
  A direct subscript `d["k"]` becomes `req d.k` (raising `PyErr.keyError`
  when the key is absent); a defaulted lookup `d.get("k", v)` becomes
  `d.k.getD v`; the truthiness test `d.get("k")` on a string field becomes
  `strTruthy d.k`.
* Operations that can raise return `Except PyErr _`.  Where the Python
  code builds `filtered_rows` by in-place appends, the embedding returns
  the partially built list together with an optional error, mirroring
  the state the Python object is left in when an exception escapes.
* `sorted(xs, key=k)` / `sorted(xs, key=k, reverse=True)` is a stable
  sort; it is embedded as `List.insertionSort` with the corresponding
  (total, transitive) relation, with the key functions evaluated first
  (a missing dict key inside the key function aborts the sort).
* External collaborators that the file imports (`LibbyClient`
  classification helpers, `extract_isbn`/`extract_asin`, `icu_lower`,
  date parsing/formatting, the `PREFS` preference store, icons and
  translations) are not part of this file; they are parameters gathered
  in the `Env` structure.  The local calibre library maps
  (`all_book_ids_titles` / `..._identifiers` / `..._formats`) are
  modelled as a `List LibraryBook` in dict iteration order.
-/

/-- Kinds of Python exceptions the modelled code can raise. -/
inductive PyErr where
  | keyError
  | typeError
  | valueError
  | indexError
deriving DecidableEq, Repr

deriving instance DecidableEq for Except

/-- The nested `loan["type"]` dict; only its `"id"` key is read. -/
structure TypeObj where
  id : Option String := none
deriving DecidableEq, Repr, Inhabited

/-- A JSON-like record (loan / hold / card / magazine subscription).
Each field models one dict key read somewhere in `models.py`; `none`
means the key is absent from the dict. -/
structure Record where
  id : Option String := none
  title : Option String := none
  sortTitle : Option String := none
  subtitle : Option String := none
  edition : Option String := none
  type_ : Option TypeObj := none
  checkoutDate : Option String := none
  expireDate : Option String := none
  placedDate : Option String := none
  cardId : Option String := none
  isAvailable : Option Bool := none
  estimatedWaitDays : Option Int := none
  suspensionFlag : Option Bool := none
  suspensionEnd : Option String := none
  redeliveriesRequestedCount : Option Int := none
  redeliveriesAutomatedCount : Option Int := none
  firstCreatorName : Option String := none
  firstCreatorSortName : Option String := none
  formats : Option (List String) := none
  isLuckyDayCheckout : Option Bool := none
  isBorrowed : Option Bool := none
  estimatedReleaseDate : Option String := none
  advantageKey : Option String := none
  cardName : Option String := none
  createDate : Option String := none
deriving DecidableEq, Repr, Inhabited

/-- One book of the local calibre library, as seen through
`all_book_ids_titles`, `all_book_ids_identifiers` (keys `isbn`,
`amazon`, `asin`, absent keys defaulting to `""` via
`book_identifiers.get(k, "")` after `identifiers.get(book_id) or empty`),
and `all_book_ids_formats` (absent entry falsy, like `[]`). -/
structure LibraryBook where
  title : String := ""
  isbn : String := ""
  amazon : String := ""
  asin : String := ""
  formats : List String := []
deriving DecidableEq, Repr, Inhabited

/-- The `synced_state` dict passed to the `sync` methods; each key is
read with `.get(key, [])`, so the embedding keeps plain lists. -/
structure SyncedState where
  cards : List Record := []
  libraries : List Record := []
  loans : List Record := []
  holds : List Record := []
  subscriptions : List Record := []
deriving DecidableEq, Repr, Inhabited

/-- External collaborators of `models.py`: preference values from
`PREFS`, the `LibbyClient` classification helpers, identifier
extraction, ICU lowercasing and the date formatting utilities.  All are
opaque parameters of the model; `getLoanFormat` returns
`Except Unit String`, the error standing for the `ValueError` that
`LibbyClient.get_loan_format` can raise. -/
structure Env where
  hideEbooks : Bool
  hideMagazines : Bool
  preferOpenFormats : Bool
  excludeEmptyBooks : Bool
  demoMode : Bool
  isDownloadableEbookLoan : Record → Bool
  isDownloadableMagazineLoan : Record → Bool
  getLoanFormat : Record → Bool → Except Unit String
  isRenewable : Record → Bool
  extractIsbn : List String → List String → String
  extractAsin : List String → String
  icuLower : String → String
  parseDatetimeLocal : String → String
  isoformat : String → String
  formatDate : String → String
  replaceMonthDay : String → Nat → Nat → String
  parseReleaseDate : String → Except Unit String
  cloverIcon : String

/-- Qt item roles used by the `data`/`setData`/`headerData` methods. -/
inductive Role where
  | display
  | displaySort
  | toolTip
  | decoration
  | textAlignment
  | foreground
  | font
  | user
  | edit
  | other
deriving DecidableEq, Repr

/-- Values a `data` call can produce (`None` is `CellValue.none`). -/
inductive CellValue where
  | none
  | str (s : String)
  | int (i : Int)
  | record (r : Record)
  | color (hex : String)
  | font (bold : Bool)
  | icon (name : String)
  | alignCenter
deriving DecidableEq, Repr

/-- Direct dict subscript `d["k"]`: raises `KeyError` when absent. -/
def req {α : Type} (o : Option α) : Except PyErr α :=
  match o with
  | some a => Except.ok a
  | none => Except.error PyErr.keyError

/-- Python truthiness of `d.get("k")` for a string-valued key:
present and non-empty. -/
def strTruthy (o : Option String) : Bool :=
  !(o.getD "" == "")

/-- Python `str.endswith`, written over the character list so that it
evaluates inside the kernel. -/
def pyEndsWith (s suffix : String) : Bool :=
  suffix.data.isSuffixOf s.data

/-- Python `str.strip()` (drop leading and trailing whitespace),
written over the character list so that it evaluates inside the
kernel. -/
def pyStrip (s : String) : String :=
  String.mk (((s.data.dropWhile Char.isWhitespace).reverse.dropWhile
    Char.isWhitespace).reverse)

/-- `LibbyMediaTypes.Magazine` from the plugin's libby client. -/
def LibbyMediaTypes.Magazine : String := "magazine"

/-- `PluginColors.Red` (a hex colour string) from the plugin's utils. -/
def PluginColors.Red : String := "#FF0000"

/-- Embeds `get_media_title(loan, for_sorting, include_subtitle)`. -/
def get_media_title (loan : Record) (for_sorting : Bool) (include_subtitle : Bool) :
    Except PyErr String := do
  let title ←
    if for_sorting && strTruthy loan.sortTitle then pure (loan.sortTitle.getD "")
    else req loan.title
  let title :=
    if include_subtitle && strTruthy loan.subtitle && !(pyEndsWith title (loan.subtitle.getD ""))
    then title ++ ": " ++ loan.subtitle.getD ""
    else title
  let tobj ← req loan.type_
  let tid ← req tobj.id
  if tid == LibbyMediaTypes.Magazine && strTruthy loan.edition then
    if !for_sorting then
      pure (title ++ " - " ++ loan.edition.getD "")
    else do
      let i ← req loan.id
      pure (title ++ "|" ++ i)
  else
    pure title

/-- Embeds `truncate_for_display(text, text_length=30)`. -/
def truncate_for_display (demoMode : Bool) (text : String) : String :=
  if demoMode then String.mk (List.replicate (min text.length 30) '*')
  else if text.length ≤ 30 then text
  else (text.take 30).push '…'

/-- `LOAN_TYPE_TRANSLATION.get(type_id, "")` (translation is modelled as
the identity on the English strings). -/
def loanTypeTranslation (tid : String) : String :=
  if tid == "ebook" then "ebook"
  else if tid == "magazine" then "magazine"
  else ""

/-- `LibbyModel.get_card`: the list comprehension evaluates
`c["cardId"]` on every card (raising `KeyError` on a card without one)
and `next(iter(...), None)` takes the first match. -/
def get_card (cards : List Record) (cardId : String) : Except PyErr (Option Record) := do
  let ms ← cards.mapM (fun c => do
    let cid ← req c.cardId
    pure (if cid == cardId then some c else none))
  pure (ms.filterMap id).head?

/-- `LibbyModel.removeRows` body on the `filtered_rows` list:
`filtered_rows[:row] + filtered_rows[row + count:]`. -/
def removeRowsList (row count : Nat) (l : List Record) : List Record :=
  l.take row ++ l.drop (row + count)

/-! ## LibbyLoansModel -/

/-- State of a `LibbyLoansModel` instance: the inherited `_cards`,
`_libraries`, `_rows`, `filtered_rows`, and the
`filter_hide_books_already_in_library` flag. -/
structure LoansState where
  cards : List Record := []
  libraries : List Record := []
  rows : List Record := []
  filtered : List Record := []
  filterHide : Bool := false
deriving DecidableEq, Repr, Inhabited

/-- The media-type visibility test of `LibbyLoansModel.filter_rows`:
`(is_downloadable_ebook_loan and not HIDE_EBOOKS) or
(is_downloadable_magazine_loan and not HIDE_MAGAZINES)`. -/
def loanVisible (env : Env) (loan : Record) : Bool :=
  (env.isDownloadableEbookLoan loan && !env.hideEbooks)
    || (env.isDownloadableMagazineLoan loan && !env.hideMagazines)

/-- The four matching keys `loan_title1`, `loan_title2`, `loan_isbn`,
`loan_asin` computed by `LibbyLoansModel.filter_rows` for a loan. -/
def loanTitlesKeys (env : Env) (loan : Record) (loanFormat : String) :
    Except PyErr (String × String × String × String) := do
  let t1 ← get_media_title loan false false
  let t2 ← get_media_title loan false true
  pure (env.icuLower (pyStrip t1), env.icuLower (pyStrip t2),
    env.extractIsbn (loan.formats.getD []) [loanFormat],
    env.extractAsin (loan.formats.getD []))

/-- The per-book match test of `LibbyLoansModel.filter_rows`:
title in `(loan_title1, loan_title2)`, or non-empty ISBN/ASIN equal to
the book's `isbn` / `amazon` / `asin` identifier. -/
def loanMatchesBook (env : Env) (t1 t2 isbn asin : String) (b : LibraryBook) : Bool :=
  (env.icuLower b.title == t1 || env.icuLower b.title == t2)
    || (!(isbn == "") && isbn == b.isbn)
    || (!(asin == "") && asin == b.amazon)
    || (!(asin == "") && asin == b.asin)

/-- The `book_in_library` scan of `LibbyLoansModel.filter_rows`: walk
the library in dict order, stop at the first matching book
(`break  # check only first matching book`); at that book the result is
`False` when `EXCLUDE_EMPTY_BOOKS` is set and the book has no formats,
else `True`. -/
def bookInLibraryScan (env : Env) (t1 t2 isbn asin : String) :
    List LibraryBook → Bool
  | [] => false
  | b :: rest =>
    if loanMatchesBook env t1 t2 isbn asin b then
      !(env.excludeEmptyBooks && b.formats.isEmpty)
    else bookInLibraryScan env t1 t2 isbn asin rest

/-- Processing of a single loan inside `LibbyLoansModel.filter_rows`:
`Except.ok true` means the loan is appended to `filtered_rows`,
`Except.ok false` means it is skipped (`continue`), and an error is an
exception escaping the loop body (only `get_media_title` can raise
here; the `ValueError` of `get_loan_format` is caught and skips). -/
def processLoan (env : Env) (lib : List LibraryBook) (flag : Bool) (loan : Record) :
    Except PyErr Bool :=
  if !loanVisible env loan then Except.ok false
  else
    match env.getLoanFormat loan env.preferOpenFormats with
    | Except.error _ => Except.ok false
    | Except.ok fmt =>
      if !flag then Except.ok true
      else
        (loanTitlesKeys env loan fmt).map
          (fun ks => !bookInLibraryScan env ks.1 ks.2.1 ks.2.2.1 ks.2.2.2 lib)

/-- The loop of `LibbyLoansModel.filter_rows` over `_rows`: returns the
`filtered_rows` list built so far together with the exception (if any)
that aborted the loop. -/
def loansFilterRows (env : Env) (lib : List LibraryBook) (flag : Bool) :
    List Record → List Record × Option PyErr
  | [] => ([], none)
  | r :: rest =>
    match processLoan env lib flag r with
    | Except.error e => ([], some e)
    | Except.ok true =>
      let (f, e) := loansFilterRows env lib flag rest
      (r :: f, e)
    | Except.ok false => loansFilterRows env lib flag rest

/-- Sort relation of `LibbyLoansModel.sync`:
`sorted(loans, key=lambda ln: ln["checkoutDate"], reverse=True)`,
i.e. `a` may precede `b` iff `b`'s checkout date ≤ `a`'s. -/
def loanSortRel (a b : Record) : Prop :=
  b.checkoutDate.getD "" ≤ a.checkoutDate.getD ""

instance : DecidableRel loanSortRel := fun a b => by
  unfold loanSortRel; infer_instance

/-- `sorted(synced_state.get("loans", []), key=..., reverse=True)`:
evaluating the key raises `KeyError` when a loan lacks
`"checkoutDate"`; otherwise a stable descending sort. -/
def loansSortRows (loans : List Record) : Except PyErr (List Record) :=
  if loans.all (fun ln => ln.checkoutDate.isSome) then
    Except.ok (List.insertionSort loanSortRel loans)
  else Except.error PyErr.keyError

/-- `LibbyLoansModel.filter_rows` as a state operation. -/
def loansFilterOp (env : Env) (lib : List LibraryBook) (s : LoansState) :
    LoansState × Option PyErr :=
  let (f, e) := loansFilterRows env lib s.filterHide s.rows
  ({ s with filtered := f }, e)

/-- `LibbyLoansModel.sync`: the base sync stores cards/libraries, then
`_rows` is replaced by the sorted loans (unchanged when the sort
raises) and `filter_rows` runs. -/
def loansSync (env : Env) (lib : List LibraryBook) (st : Option SyncedState)
    (s : LoansState) : LoansState × Option PyErr :=
  let stv := st.getD {}
  let s1 := { s with cards := stv.cards, libraries := stv.libraries }
  match loansSortRows stv.loans with
  | Except.error e => (s1, some e)
  | Except.ok sortedLoans => loansFilterOp env lib { s1 with rows := sortedLoans }

/-- `LibbyLoansModel.set_filter_hide_books_already_in_library`. -/
def loansSetFilter (env : Env) (lib : List LibraryBook) (value : Bool)
    (s : LoansState) : LoansState × Option PyErr :=
  if value ≠ s.filterHide then loansFilterOp env lib { s with filterHide := value }
  else (s, none)

/-- `LibbyModel.removeRows` acting on a `LibbyLoansModel`; the returned
`Bool` is the method's `return True`. -/
def loansRemoveRows (row count : Nat) (s : LoansState) : LoansState × Bool :=
  ({ s with filtered := removeRowsList row count s.filtered }, true)

/-- `LibbyLoansModel.data(index, role)` with `index = (row, col)`. -/
def loansData (env : Env) (s : LoansState) (row col : Nat) (role : Role) :
    Except PyErr CellValue := do
  if row ≥ s.filtered.length then pure CellValue.none
  else do
    let loan := s.filtered.getD row default
    if role = Role.user then pure (CellValue.record loan)
    else if col ≥ 6 then pure CellValue.none
    else if role = Role.toolTip ∧ col = 0 then do
      let t ← get_media_title loan false true
      pure (CellValue.str t)
    else if role = Role.toolTip ∧ col = 2 ∧ loan.isLuckyDayCheckout.getD false then
      pure (CellValue.str "A skip-the-line loan")
    else if role = Role.decoration ∧ col = 2 ∧ loan.isLuckyDayCheckout.getD false then
      pure (CellValue.icon env.cloverIcon)
    else if role = Role.textAlignment ∧ col ≥ 2 then pure CellValue.alignCenter
    else if role = Role.foreground ∧ col = 2 ∧ env.isRenewable loan then
      pure (CellValue.color PluginColors.Red)
    else if role ≠ Role.display ∧ role ≠ Role.displaySort then pure CellValue.none
    else if col = 0 then
      if role = Role.displaySort then do
        let t ← get_media_title loan true false
        pure (CellValue.str t)
      else do
        let t ← get_media_title loan false false
        pure (CellValue.str t)
    else if col = 1 then
      let creatorName := loan.firstCreatorName.getD ""
      if role = Role.displaySort then
        pure (CellValue.str
          (if strTruthy loan.firstCreatorSortName then loan.firstCreatorSortName.getD ""
           else creatorName))
      else pure (CellValue.str creatorName)
    else if col = 2 then do
      let ed ← req loan.expireDate
      let dtValue := env.parseDatetimeLocal ed
      if role = Role.displaySort then pure (CellValue.str (env.isoformat dtValue))
      else if env.demoMode then
        pure (CellValue.str (env.formatDate (env.replaceMonthDay dtValue 12 31)))
      else pure (CellValue.str (env.formatDate dtValue))
    else if col = 3 then do
      let cid ← req loan.cardId
      let cardOpt ← get_card s.cards cid
      let card ← match cardOpt with
        | some c => pure c
        | none => Except.error PyErr.typeError
      let ak ← req card.advantageKey
      if env.demoMode then pure (CellValue.str (String.mk (List.replicate ak.length '*')))
      else pure (CellValue.str ak)
    else if col = 4 then
      let tid := ((loan.type_.getD {}).id).getD ""
      pure (CellValue.str
        (if !(loanTypeTranslation tid == "") then loanTypeTranslation tid else tid))
    else if col = 5 then
      match env.getLoanFormat loan env.preferOpenFormats with
      | Except.error _ => Except.error PyErr.valueError
      | Except.ok f => pure (CellValue.str f)
    else pure CellValue.none

/-! ## LibbyHoldsModel -/

/-- State of a `LibbyHoldsModel` instance. -/
structure HoldsState where
  cards : List Record := []
  libraries : List Record := []
  rows : List Record := []
  filtered : List Record := []
  filterHideUnavailable : Bool := true
deriving DecidableEq, Repr, Inhabited

/-- The sort key of `LibbyHoldsModel.sync`:
`(h["isAvailable"], -h.get("estimatedWaitDays", 9999), h["placedDate"])`;
`none` when one of the direct subscripts raises `KeyError`. -/
def holdSortKey (h : Record) : Option (Bool × Int × String) :=
  match h.isAvailable, h.placedDate with
  | some avail, some placed => some (avail, -(h.estimatedWaitDays.getD 9999), placed)
  | _, _ => none

/-- `holdSortKey` with a dummy value, used only under the hypothesis
that the key is defined. -/
def holdKeyD (h : Record) : Bool × Int × String :=
  (holdSortKey h).getD (false, 0, "")

/-- Python's `<=` on `(bool, int, str)` tuples (lexicographic,
`False < True`, strings ordered by code point). -/
def pyTupleLe (a b : Bool × Int × String) : Bool :=
  (!a.1 && b.1)
    || (a.1 == b.1 && (decide (a.2.1 < b.2.1)
        || (a.2.1 == b.2.1 && decide (a.2.2 ≤ b.2.2))))

/-- Sort relation of `LibbyHoldsModel.sync` (`reverse=True`): `a` may
precede `b` iff `b`'s key tuple ≤ `a`'s. -/
def holdSortRel (a b : Record) : Prop :=
  pyTupleLe (holdKeyD b) (holdKeyD a) = true

instance : DecidableRel holdSortRel := fun a b => by
  unfold holdSortRel; infer_instance

/-- `sorted(synced_state.get("holds", []), key=..., reverse=True)`:
evaluating the key raises `KeyError` when a hold lacks `"isAvailable"`
or `"placedDate"`; otherwise a stable descending sort on the tuple
key. -/
def holdsSortRows (holds : List Record) : Except PyErr (List Record) :=
  if holds.all (fun h => (holdSortKey h).isSome) then
    Except.ok (List.insertionSort holdSortRel holds)
  else Except.error PyErr.keyError

/-- The media-type visibility test of `LibbyHoldsModel.filter_rows`
(the list comprehension over `_rows`). -/
def holdVisible (env : Env) (h : Record) : Bool :=
  (!env.hideEbooks && env.isDownloadableEbookLoan h)
    || (!env.hideMagazines && env.isDownloadableMagazineLoan h)

/-- `LibbyHoldsModel.filter_rows` on `_rows`: keep the visible holds
and, among those, the ones with `h.get("isAvailable", False)` truthy or
the hide-unavailable toggle off. -/
def holdsFilterRows (env : Env) (flag : Bool) (rows : List Record) : List Record :=
  (rows.filter (holdVisible env)).filter
    (fun h => h.isAvailable.getD false || !flag)

/-- `LibbyHoldsModel.filter_rows` as a state operation (total: nothing
in this loop can raise). -/
def holdsFilterOp (env : Env) (s : HoldsState) : HoldsState :=
  { s with filtered := holdsFilterRows env s.filterHideUnavailable s.rows }

/-- `LibbyHoldsModel.sync`. -/
def holdsSync (env : Env) (st : Option SyncedState) (s : HoldsState) :
    HoldsState × Option PyErr :=
  let stv := st.getD {}
  let s1 := { s with cards := stv.cards, libraries := stv.libraries }
  match holdsSortRows stv.holds with
  | Except.error e => (s1, some e)
  | Except.ok sortedHolds => (holdsFilterOp env { s1 with rows := sortedHolds }, none)

/-- `LibbyHoldsModel.set_filter_hide_unavailable_holds`. -/
def holdsSetFilter (env : Env) (value : Bool) (s : HoldsState) : HoldsState :=
  if value ≠ s.filterHideUnavailable then
    holdsFilterOp env { s with filterHideUnavailable := value }
  else s

/-- `LibbyHoldsModel.setData(index, hold, role)`: under `EditRole` it
replaces `filtered_rows[index.row()]` in place (an out-of-range row
raises `IndexError`); other roles do nothing. -/
def holdsSetData (row : Nat) (hold : Record) (role : Role) (s : HoldsState) :
    HoldsState × Option PyErr :=
  if role = Role.edit then
    if row < s.filtered.length then ({ s with filtered := s.filtered.set row hold }, none)
    else (s, some PyErr.indexError)
  else (s, none)

/-- `LibbyModel.removeRows` acting on a `LibbyHoldsModel`. -/
def holdsRemoveRows (row count : Nat) (s : HoldsState) : HoldsState × Bool :=
  ({ s with filtered := removeRowsList row count s.filtered }, true)

/-- The `is_suspended` flag computed by `LibbyHoldsModel.data`. -/
def holdIsSuspended (hold : Record) : Bool :=
  (hold.suspensionFlag.getD false && strTruthy hold.suspensionEnd)
    && !(hold.isAvailable.getD false)

/-- `LibbyHoldsModel.data(index, role)`. -/
def holdsData (env : Env) (s : HoldsState) (row col : Nat) (role : Role) :
    Except PyErr CellValue := do
  if row ≥ s.filtered.length then pure CellValue.none
  else do
    let hold := s.filtered.getD row default
    let isSuspended := holdIsSuspended hold
    if role = Role.user then pure (CellValue.record hold)
    else if col ≥ 6 then pure CellValue.none
    else if role = Role.toolTip ∧ col = 0 then do
      let t ← get_media_title hold false true
      pure (CellValue.str t)
    else if role = Role.toolTip ∧ col = 2 ∧ strTruthy hold.expireDate then do
      let ed ← req hold.expireDate
      let dtValue := env.parseDatetimeLocal ed
      pure (CellValue.str ("Expires " ++ env.formatDate dtValue))
    else if role = Role.foreground ∧ col = 2 ∧ hold.isAvailable.getD false then
      pure (CellValue.color PluginColors.Red)
    else if role = Role.textAlignment ∧ col ≥ 2 then pure CellValue.alignCenter
    else if role = Role.font ∧ col = 5 ∧ hold.isAvailable.getD false then
      pure (CellValue.font true)
    else if role = Role.toolTip ∧ col = 5 ∧ isSuspended then do
      let se ← req hold.suspensionEnd
      let suspendedTill := env.parseDatetimeLocal se
      if hold.redeliveriesRequestedCount.getD 0 > 0
          ∨ hold.redeliveriesAutomatedCount.getD 0 > 0 then
        pure (CellValue.str ("Deliver after " ++ env.formatDate suspendedTill))
      else
        pure (CellValue.str ("Suspended till " ++ env.formatDate suspendedTill))
    else if role ≠ Role.display ∧ role ≠ Role.displaySort then pure CellValue.none
    else if col = 0 then
      if role = Role.displaySort then do
        let t ← get_media_title hold true false
        pure (CellValue.str t)
      else do
        let t ← get_media_title hold false false
        pure (CellValue.str t)
    else if col = 1 then
      let creatorName := hold.firstCreatorName.getD ""
      if role = Role.displaySort then
        pure (CellValue.str
          (if strTruthy hold.firstCreatorSortName then hold.firstCreatorSortName.getD ""
           else creatorName))
      else pure (CellValue.str creatorName)
    else if col = 2 then do
      let dateStr ←
        if strTruthy hold.expireDate then pure (hold.expireDate.getD "")
        else req hold.placedDate
      let dtValue := env.parseDatetimeLocal dateStr
      if role = Role.displaySort then pure (CellValue.str (env.isoformat dtValue))
      else if env.demoMode then
        pure (CellValue.str (env.formatDate (env.replaceMonthDay dtValue 1 1)))
      else pure (CellValue.str (env.formatDate dtValue))
    else if col = 3 then do
      let cid ← req hold.cardId
      let cardOpt ← get_card s.cards cid
      let card ← match cardOpt with
        | some c => pure c
        | none => Except.error PyErr.typeError
      let ak ← req card.advantageKey
      if env.demoMode then pure (CellValue.str (String.mk (List.replicate ak.length '*')))
      else pure (CellValue.str ak)
    else if col = 4 then
      match env.getLoanFormat hold env.preferOpenFormats with
      | Except.error _ => Except.error PyErr.valueError
      | Except.ok f => pure (CellValue.str f)
    else if col = 5 then
      if role = Role.displaySort then
        pure (CellValue.int
          (if isSuspended then -1 else if hold.isAvailable.getD false then 1 else 0))
      else if isSuspended then
        if hold.redeliveriesRequestedCount.getD 0 > 0
            ∨ hold.redeliveriesAutomatedCount.getD 0 > 0 then
          pure (CellValue.str "Delayed")
        else pure (CellValue.str "Suspended")
      else if hold.isAvailable.getD false then pure (CellValue.str "Yes")
      else pure (CellValue.str "No")
    else pure CellValue.none

/-! ## LibbyCardsModel -/

/-- State of a `LibbyCardsModel` instance. -/
structure CardsState where
  cards : List Record := []
  libraries : List Record := []
  rows : List Record := []
  filtered : List Record := []
deriving DecidableEq, Repr, Inhabited

/-- Sort relation of `LibbyCardsModel.filter_rows`:
`sorted(self._rows, key=lambda c: c["createDate"])` (ascending). -/
def cardSortRel (a b : Record) : Prop :=
  a.createDate.getD "" ≤ b.createDate.getD ""

instance : DecidableRel cardSortRel := fun a b => by
  unfold cardSortRel; infer_instance

/-- The sorted card list, `none` when some card lacks `"createDate"`. -/
def cardsSortRows (cards : List Record) : Except PyErr (List Record) :=
  if cards.all (fun c => c.createDate.isSome) then
    Except.ok (List.insertionSort cardSortRel cards)
  else Except.error PyErr.keyError

/-- `LibbyCardsModel.filter_rows`: `filtered_rows` is assigned the
sorted `_rows` in one statement, so when the sort raises the state is
unchanged. -/
def cardsFilterOp (s : CardsState) : CardsState × Option PyErr :=
  match cardsSortRows s.rows with
  | Except.error e => (s, some e)
  | Except.ok sortedCards => ({ s with filtered := sortedCards }, none)

/-- `LibbyCardsModel.sync`: `_rows = self._cards`, then `filter_rows`. -/
def cardsSync (st : Option SyncedState) (s : CardsState) :
    CardsState × Option PyErr :=
  let stv := st.getD {}
  cardsFilterOp
    { s with
      cards := stv.cards
      libraries := stv.libraries
      rows := stv.cards }

/-- `LibbyModel.removeRows` acting on a `LibbyCardsModel`. -/
def cardsRemoveRows (row count : Nat) (s : CardsState) : CardsState × Bool :=
  ({ s with filtered := removeRowsList row count s.filtered }, true)

/-- `LibbyCardsModel.data(index, role)`. -/
def cardsData (env : Env) (s : CardsState) (row col : Nat) (role : Role) :
    Except PyErr CellValue := do
  if row ≥ s.filtered.length then pure CellValue.none
  else do
    let card := s.filtered.getD row default
    if role = Role.user then pure (CellValue.record card)
    else if role ≠ Role.display then pure CellValue.none
    else if col = 0 then do
      let ak ← req card.advantageKey
      let cn ← req card.cardName
      pure (CellValue.str (truncate_for_display env.demoMode (ak ++ ": " ++ cn)))
    else pure CellValue.none

/-! ## LibbyMagazinesModel -/

/-- State of a `LibbyMagazinesModel` instance: it additionally stores
the current loans in `_loans`. -/
structure MagsState where
  cards : List Record := []
  libraries : List Record := []
  loans : List Record := []
  rows : List Record := []
  filtered : List Record := []
  filterHide : Bool := false
deriving DecidableEq, Repr, Inhabited

/-- Sort relation of `LibbyMagazinesModel.filter_rows`:
`sorted(self._rows, key=lambda t: t["estimatedReleaseDate"],
reverse=True)`. -/
def magSortRel (a b : Record) : Prop :=
  b.estimatedReleaseDate.getD "" ≤ a.estimatedReleaseDate.getD ""

instance : DecidableRel magSortRel := fun a b => by
  unfold magSortRel; infer_instance

/-- The `bool([l for l in self._loans if l["id"] == r["id"]])`
computation: the comprehension evaluates `l["id"]` and `r["id"]` for
every loan (raising `KeyError` on a missing id), with no
short-circuit. -/
def magBorrowedScan (rid : Option String) : List Record → Except PyErr Bool
  | [] => Except.ok false
  | l :: rest => do
    let lid ← req l.id
    let r ← req rid
    let b ← magBorrowedScan rid rest
    pure (lid == r || b)

/-- The `book_in_library` title scan of `LibbyMagazinesModel.filter_rows`:
stop at the first book whose lowered title is `q1` or `q2`
(`break  # check only first matching book title`); that book counts
unless `EXCLUDE_EMPTY_BOOKS` is set and it has no formats. -/
def magBookScan (env : Env) (q1 q2 : String) : List LibraryBook → Bool
  | [] => false
  | b :: rest =>
    if env.icuLower b.title == q1 || env.icuLower b.title == q2 then
      !env.excludeEmptyBooks || !b.formats.isEmpty
    else magBookScan env q1 q2 rest

/-- The `r["__is_borrowed"] = bool(...)` mutation of one subscription:
the comprehension on the right-hand side is evaluated first, so when it
raises a `KeyError` the record is left unmutated. -/
def magMutate (loans : List Record) (r : Record) : Except PyErr Record :=
  (magBorrowedScan r.id loans).map (fun b => { r with isBorrowed := some b })

/-- The inclusion decision for one (already mutated) subscription in
`LibbyMagazinesModel.filter_rows`: always included when the hide toggle
is off, else included iff the title scan finds no owned copy
(`get_media_title` can raise here). -/
def magIncludeStage (env : Env) (lib : List LibraryBook) (flag : Bool)
    (r1 : Record) : Except PyErr Bool :=
  if flag then do
    let t1 ← get_media_title r1 false false
    let t2 ← get_media_title r1 false true
    pure (!magBookScan env (env.icuLower (pyStrip t1)) (env.icuLower (pyStrip t2)) lib)
  else pure true

/-- The loop of `LibbyMagazinesModel.filter_rows` over the sorted
subscriptions.  Returns `(processed, filtered, err)`: the records whose
`__is_borrowed` mutation has happened so far (in iteration order), the
`filtered_rows` list built so far, and the exception (if any) that
aborted the loop.  A record whose borrowed computation raises is not
mutated; a record whose title computation raises is mutated but not
appended. -/
def magsLoop (env : Env) (lib : List LibraryBook) (loans : List Record)
    (flag : Bool) : List Record → List Record × List Record × Option PyErr
  | [] => ([], [], none)
  | r :: rest =>
    match magMutate loans r with
    | Except.error e => ([], [], some e)
    | Except.ok r1 =>
      match magIncludeStage env lib flag r1 with
      | Except.error e => ([r], [], some e)
      | Except.ok inc =>
        let (ps, fs, e) := magsLoop env lib loans flag rest
        (r :: ps, if inc then r1 :: fs else fs, e)

/-- The in-place dict mutations seen through `_rows`: a record whose
mutation has run carries its `__is_borrowed` flag.  (Python mutates by
object identity; as everywhere in this embedding, records are compared
by value, so all occurrences of a processed value are mutated alike.) -/
def magApplyMut (loans : List Record) (processed : List Record) (r : Record) : Record :=
  if r ∈ processed then
    match magMutate loans r with
    | Except.ok r1 => r1
    | Except.error _ => r
  else r

/-- The body of `LibbyMagazinesModel.filter_rows`: `filtered_rows` is
reset to `[]`, then the subscriptions are iterated in descending
release-date order (a missing `estimatedReleaseDate` makes `sorted`
raise before anything is mutated or appended), each record's
`__is_borrowed` flag is set in place and the included ones are
collected.  Returns `(new _rows, filtered_rows, err)`; on an error the
post-state keeps the `filtered_rows` prefix built so far and the
mutations applied so far, mirroring the state the Python object is
left in. -/
def magsFilterRows (env : Env) (lib : List LibraryBook) (loans : List Record)
    (flag : Bool) (rows : List Record) : List Record × List Record × Option PyErr :=
  if rows.all (fun r => r.estimatedReleaseDate.isSome) then
    let (processed, fs, e) :=
      magsLoop env lib loans flag (List.insertionSort magSortRel rows)
    (rows.map (magApplyMut loans processed), fs, e)
  else (rows, [], some PyErr.keyError)

/-- `LibbyMagazinesModel.filter_rows` as a state operation, error
post-state included. -/
def magsFilterOp (env : Env) (lib : List LibraryBook) (s : MagsState) :
    MagsState × Option PyErr :=
  let (newRows, f, e) := magsFilterRows env lib s.loans s.filterHide s.rows
  ({ s with rows := newRows, filtered := f }, e)

/-- `LibbyMagazinesModel.sync`: stores `_loans` and the
`__subscriptions` as `_rows`, then `filter_rows`. -/
def magsSync (env : Env) (lib : List LibraryBook) (st : Option SyncedState)
    (s : MagsState) : MagsState × Option PyErr :=
  let stv := st.getD {}
  magsFilterOp env lib
    { s with
      cards := stv.cards
      libraries := stv.libraries
      loans := stv.loans
      rows := stv.subscriptions }

/-- `LibbyMagazinesModel.sync_subscriptions`. -/
def magsSyncSubscriptions (env : Env) (lib : List LibraryBook)
    (subscriptions : List Record) (s : MagsState) : MagsState × Option PyErr :=
  magsFilterOp env lib { s with rows := subscriptions }

/-- `LibbyMagazinesModel.set_filter_hide_magazines_already_in_library`. -/
def magsSetFilter (env : Env) (lib : List LibraryBook) (value : Bool)
    (s : MagsState) : MagsState × Option PyErr :=
  if value ≠ s.filterHide then magsFilterOp env lib { s with filterHide := value }
  else (s, none)

/-- `LibbyModel.removeRows` acting on a `LibbyMagazinesModel`. -/
def magsRemoveRows (row count : Nat) (s : MagsState) : MagsState × Bool :=
  ({ s with filtered := removeRowsList row count s.filtered }, true)

/-- `LibbyMagazinesModel.data(index, role)`. -/
def magsData (env : Env) (s : MagsState) (row col : Nat) (role : Role) :
    Except PyErr CellValue := do
  if row ≥ s.filtered.length then pure CellValue.none
  else do
    let subscription := s.filtered.getD row default
    if role = Role.user then pure (CellValue.record subscription)
    else if col ≥ 4 then pure CellValue.none
    else if role = Role.textAlignment ∧ col ≥ 1 then pure CellValue.alignCenter
    else if role = Role.toolTip ∧ col = 0 then do
      let t ← get_media_title subscription false true
      pure (CellValue.str t)
    else if role = Role.toolTip ∧ col = 2 then do
      let cid ← req subscription.cardId
      let cardOpt ← get_card s.cards cid
      match cardOpt with
      | none => pure (CellValue.str "Invalid card setup")
      | some card => do
        let ak ← req card.advantageKey
        let cn ← req card.cardName
        pure (CellValue.str (ak ++ ": " ++ cn))
    else if role ≠ Role.display ∧ role ≠ Role.displaySort then pure CellValue.none
    else if col = 0 then do
      let t ← get_media_title subscription false false
      pure (CellValue.str t)
    else if col = 1 then do
      let rd ← req subscription.estimatedReleaseDate
      match env.parseReleaseDate rd with
      | Except.error _ => Except.error PyErr.valueError
      | Except.ok dtValue =>
        if role = Role.displaySort then pure (CellValue.str (env.isoformat dtValue))
        else pure (CellValue.str (env.formatDate dtValue))
    else if col = 2 then do
      let cid ← req subscription.cardId
      let cardOpt ← get_card s.cards cid
      match cardOpt with
      | none => pure (CellValue.str "Invalid card setup")
      | some card => do
        let ak ← req card.advantageKey
        let cn ← req card.cardName
        pure (CellValue.str (truncate_for_display env.demoMode (ak ++ ": " ++ cn)))
    else if col = 3 then
      if role = Role.displaySort then
        match subscription.isBorrowed with
        | none => Except.error PyErr.typeError
        | some b => pure (CellValue.int (if b then 1 else 0))
      else if subscription.isBorrowed.getD false then pure (CellValue.str "Yes")
      else pure (CellValue.str "No")
    else pure CellValue.none

/-! ## Spec-side definitions and sample data -/

/-- The subset invariant of the spec: every filtered row is one of the
raw synced rows. -/
def subsetInv (filtered rows : List Record) : Prop :=
  ∀ r ∈ filtered, r ∈ rows

instance (filtered rows : List Record) : Decidable (subsetInv filtered rows) := by
  unfold subsetInv; infer_instance

/-- The hold ordering asserted by claim C2 (following the claim's
words): available before unavailable; among equal availability the
longer `estimatedWaitDays` first; among equal on both, the later
`placedDate` first. -/
def claimHoldOrder (a b : Record) : Prop :=
  (a.isAvailable.getD false = true ∧ b.isAvailable.getD false = false)
    ∨ (a.isAvailable.getD false = b.isAvailable.getD false ∧
        (b.estimatedWaitDays.getD 9999 < a.estimatedWaitDays.getD 9999
          ∨ (a.estimatedWaitDays.getD 9999 = b.estimatedWaitDays.getD 9999 ∧
              (b.placedDate.getD "" < a.placedDate.getD ""
                ∨ a.placedDate.getD "" = b.placedDate.getD ""))))

/-- The ordering the code actually produces: available before
unavailable; among equal availability the shorter `estimatedWaitDays`
first (missing counts as 9999); among equal on both, the later
`placedDate` first. -/
def actualHoldOrder (a b : Record) : Prop :=
  (a.isAvailable.getD false = true ∧ b.isAvailable.getD false = false)
    ∨ (a.isAvailable.getD false = b.isAvailable.getD false ∧
        (a.estimatedWaitDays.getD 9999 < b.estimatedWaitDays.getD 9999
          ∨ (a.estimatedWaitDays.getD 9999 = b.estimatedWaitDays.getD 9999 ∧
              b.placedDate.getD "" ≤ a.placedDate.getD "")))

instance : DecidableRel claimHoldOrder := fun a b => by
  unfold claimHoldOrder; infer_instance

instance : DecidableRel actualHoldOrder := fun a b => by
  unfold actualHoldOrder; infer_instance

/-- A fully concrete environment for evaluating the model on sample
data: every loan classifies as a downloadable ebook with format
`"EPUB"`, identifier extraction finds nothing, `icu_lower` and the date
helpers are the identity, and `EXCLUDE_EMPTY_BOOKS` is set. -/
def sampleEnv : Env where
  hideEbooks := false
  hideMagazines := false
  preferOpenFormats := false
  excludeEmptyBooks := true
  demoMode := false
  isDownloadableEbookLoan := fun _ => true
  isDownloadableMagazineLoan := fun _ => false
  getLoanFormat := fun _ _ => Except.ok "EPUB"
  isRenewable := fun _ => false
  extractIsbn := fun _ _ => ""
  extractAsin := fun _ => ""
  icuLower := fun s => s
  parseDatetimeLocal := fun s => s
  isoformat := fun s => s
  formatDate := fun s => s
  replaceMonthDay := fun s _ _ => s
  parseReleaseDate := fun s => Except.ok s
  cloverIcon := "clover"

/-- `sampleEnv` with a format classifier that always raises
`ValueError`. -/
def errorFormatEnv : Env :=
  { sampleEnv with getLoanFormat := fun _ _ => Except.error () }

/-- A plain ebook loan titled `"dune"`. -/
def duneLoan : Record :=
  { title := some "dune", type_ := some { id := some "ebook" },
    checkoutDate := some "2023-07-01" }

/-- A library book titled `"dune"` with no formats. -/
def emptyDuneBook : LibraryBook := { title := "dune" }

/-- A library book titled `"dune"` with an EPUB format. -/
def epubDuneBook : LibraryBook := { title := "dune", formats := ["EPUB"] }

/-- An available hold (sample data). -/
def sampleHoldA : Record :=
  { title := some "a", type_ := some { id := some "ebook" },
    isAvailable := some true, placedDate := some "2023-01-01" }

/-- A second, distinct hold (sample data). -/
def sampleHoldB : Record :=
  { title := some "b", type_ := some { id := some "ebook" },
    isAvailable := some true, placedDate := some "2023-02-02" }

/-- An available hold with a short estimated wait. -/
def holdShortWait : Record :=
  { title := some "s", isAvailable := some true,
    placedDate := some "2023-01-01", estimatedWaitDays := some 5 }

/-- An available hold with a long estimated wait. -/
def holdLongWait : Record :=
  { title := some "l", isAvailable := some true,
    placedDate := some "2023-01-01", estimatedWaitDays := some 10 }

/-- A hold whose dict has no `"isAvailable"` key. -/
def noAvailabilityHold : Record :=
  { title := some "x", placedDate := some "2023-01-01",
    estimatedWaitDays := some 3 }

/-- A loans-model state whose `filtered_rows` is consistent with its
`_rows` under an active hide-already-owned filter. -/
def sampleLoansState : LoansState :=
  { rows := [duneLoan],
    filtered := (loansFilterRows sampleEnv [emptyDuneBook] true [duneLoan]).1,
    filterHide := true }

/-- A holds-model state holding `sampleHoldA` as its only row. -/
def sampleHoldsState : HoldsState :=
  { rows := [sampleHoldA], filtered := [sampleHoldA],
    filterHideUnavailable := false }

/-- A card record with a `createDate` (sample data). -/
def oldCard : Record :=
  { cardId := some "c1", advantageKey := some "lib1", cardName := some "old",
    createDate := some "2020-01-01" }

/-- A card record whose dict has no `"createDate"` key. -/
def badCard : Record :=
  { cardId := some "c2", advantageKey := some "lib2", cardName := some "new" }

/-- A cards-model state consistent before a failing sync. -/
def cardsStaleState : CardsState :=
  { cards := [oldCard], rows := [oldCard], filtered := [oldCard] }

/-! ## Helper lemmas -/

theorem pyTupleLe_total (a b : Bool × Int × String) :
    pyTupleLe a b = true ∨ pyTupleLe b a = true := by
  rcases a with ⟨x1, x2, x3⟩
  rcases b with ⟨y1, y2, y3⟩
  unfold pyTupleLe
  simp only [Bool.or_eq_true, Bool.and_eq_true, Bool.not_eq_true', beq_iff_eq,
    decide_eq_true_eq]
  rcases x1 <;> rcases y1 <;> simp
  all_goals {
    rcases lt_trichotomy x2 y2 with h | h | h
    · tauto
    · subst h
      rcases le_total x3 y3 with h3 | h3
      · exact Or.inl (Or.inr ⟨rfl, String.le_iff_toList_le.mp h3⟩)
      · exact Or.inr (Or.inr ⟨rfl, String.le_iff_toList_le.mp h3⟩)
    · tauto }

theorem pyTupleLe_trans (a b c : Bool × Int × String) (hab : pyTupleLe a b = true)
    (hbc : pyTupleLe b c = true) : pyTupleLe a c = true := by
  rcases a with ⟨x1, x2, x3⟩
  rcases b with ⟨y1, y2, y3⟩
  rcases c with ⟨z1, z2, z3⟩
  unfold pyTupleLe at *
  simp only [Bool.or_eq_true, Bool.and_eq_true, Bool.not_eq_true', beq_iff_eq,
    decide_eq_true_eq] at *
  rcases x1 <;> rcases y1 <;> rcases z1 <;> simp_all
  all_goals {
    rcases hab with h | ⟨he, hs⟩ <;> rcases hbc with h2 | ⟨he2, hs2⟩
    · omega
    · subst he2; tauto
    · subst he; tauto
    · subst he; subst he2; exact Or.inr ⟨rfl, le_trans hs hs2⟩ }

instance : IsTotal Record holdSortRel :=
  ⟨fun a b => pyTupleLe_total (holdKeyD b) (holdKeyD a)⟩

instance : IsTrans Record holdSortRel :=
  ⟨fun _ _ _ h1 h2 => pyTupleLe_trans _ _ _ h2 h1⟩

instance : IsTotal Record loanSortRel :=
  ⟨fun a b => le_total (b.checkoutDate.getD "") (a.checkoutDate.getD "")⟩

instance : IsTrans Record loanSortRel :=
  ⟨fun _ _ _ h1 h2 => le_trans h2 h1⟩

instance : IsTotal Record cardSortRel :=
  ⟨fun a b => le_total (a.createDate.getD "") (b.createDate.getD "")⟩

instance : IsTrans Record cardSortRel :=
  ⟨fun _ _ _ h1 h2 => le_trans h1 h2⟩

instance : IsTotal Record magSortRel :=
  ⟨fun a b => le_total (b.estimatedReleaseDate.getD "") (a.estimatedReleaseDate.getD "")⟩

instance : IsTrans Record magSortRel :=
  ⟨fun _ _ _ h1 h2 => le_trans h2 h1⟩

theorem mem_loansFilterRows {env : Env} {lib : List LibraryBook} {flag : Bool}
    {rows : List Record} {v : Record} (h : v ∈ (loansFilterRows env lib flag rows).1) :
    v ∈ rows ∧ processLoan env lib flag v = Except.ok true := by
  induction rows with
  | nil => simp [loansFilterRows] at h
  | cons r rest ih =>
    rcases hrec : loansFilterRows env lib flag rest with ⟨f, e⟩
    cases hp : processLoan env lib flag r with
    | error err => simp [loansFilterRows, hp] at h
    | ok b =>
      cases b with
      | false =>
        rw [loansFilterRows, hp] at h
        rcases ih h with ⟨hm, hq⟩
        exact ⟨List.mem_cons_of_mem r hm, hq⟩
      | true =>
        rw [loansFilterRows, hp, hrec] at h
        rcases List.mem_cons.mp h with h1 | h1
        · subst h1; exact ⟨List.mem_cons_self _ _, hp⟩
        · rcases ih (by rw [hrec]; exact h1) with ⟨hm, hq⟩
          exact ⟨List.mem_cons_of_mem r hm, hq⟩

theorem not_mem_loansFilterRows {env : Env} {lib : List LibraryBook} {flag : Bool}
    {rows : List Record} {v : Record}
    (h : processLoan env lib flag v ≠ Except.ok true) :
    v ∉ (loansFilterRows env lib flag rows).1 := by
  intro hmem
  exact h (mem_loansFilterRows hmem).2

theorem mem_holdsFilterRows {env : Env} {flag : Bool} {rows : List Record}
    {h : Record} :
    h ∈ holdsFilterRows env flag rows ↔
      h ∈ rows ∧ holdVisible env h = true
        ∧ (h.isAvailable.getD false || !flag) = true := by
  simp only [holdsFilterRows, List.mem_filter, and_assoc, and_congr_right_iff]

theorem magsLoop_mem_filtered {env : Env} {lib : List LibraryBook}
    {loans : List Record} {flag : Bool} {l ps fs : List Record} {e : Option PyErr}
    (h : magsLoop env lib loans flag l = (ps, fs, e)) :
    ∀ x ∈ fs, ∃ r ∈ l, r ∈ ps ∧ magMutate loans r = Except.ok x := by
  induction l generalizing ps fs e with
  | nil =>
    rw [magsLoop] at h
    simp only [Prod.mk.injEq] at h
    rcases h with ⟨h1, h2, h3⟩
    subst h2
    simp
  | cons r rest ih =>
    cases hmut : magMutate loans r with
    | error e2 =>
      simp only [magsLoop, hmut, Prod.mk.injEq] at h
      rcases h with ⟨h1, h2, h3⟩
      subst h2
      simp
    | ok r1 =>
      cases hinc : magIncludeStage env lib flag r1 with
      | error e2 =>
        simp only [magsLoop, hmut, hinc, Prod.mk.injEq] at h
        rcases h with ⟨h1, h2, h3⟩
        subst h2
        simp
      | ok inc =>
        rcases hrec : magsLoop env lib loans flag rest with ⟨ps0, fs0, e0⟩
        simp only [magsLoop, hmut, hinc, hrec, Prod.mk.injEq] at h
        rcases h with ⟨hps, hfs, he⟩
        subst hps
        subst hfs
        intro x hx
        cases inc with
        | true =>
          rcases List.mem_cons.mp hx with h1 | h1
          · subst h1
            exact ⟨r, List.mem_cons_self _ _, List.mem_cons_self _ _, hmut⟩
          · rcases ih hrec x h1 with ⟨r2, hr2, hr2ps, hq⟩
            exact ⟨r2, List.mem_cons_of_mem r hr2, List.mem_cons_of_mem r hr2ps, hq⟩
        | false =>
          rcases ih hrec x hx with ⟨r2, hr2, hr2ps, hq⟩
          exact ⟨r2, List.mem_cons_of_mem r hr2, List.mem_cons_of_mem r hr2ps, hq⟩

theorem magsFilterRows_subset (env : Env) (lib : List LibraryBook)
    (loans : List Record) (flag : Bool) (rows : List Record) :
    subsetInv (magsFilterRows env lib loans flag rows).2.1
      (magsFilterRows env lib loans flag rows).1 := by
  unfold magsFilterRows
  by_cases hall : rows.all (fun r => r.estimatedReleaseDate.isSome)
  · rw [if_pos hall]
    rcases hl : magsLoop env lib loans flag (List.insertionSort magSortRel rows) with
      ⟨ps, fs, e⟩
    intro x hx
    rcases magsLoop_mem_filtered hl x hx with ⟨r, hrl, hrps, hmut⟩
    have hrrows : r ∈ rows := by simpa using hrl
    have happ : magApplyMut loans ps r = x := by
      unfold magApplyMut
      rw [if_pos hrps, hmut]
    exact happ ▸ List.mem_map_of_mem (magApplyMut loans ps) hrrows
  · rw [if_neg hall]
    intro x hx
    simp at hx

theorem holdSortKey_isSome_iff {h : Record} :
    (holdSortKey h).isSome = true ↔ h.isAvailable.isSome ∧ h.placedDate.isSome := by
  cases hA : h.isAvailable <;> cases hP : h.placedDate <;>
    simp [holdSortKey, hA, hP]

theorem holdSortRel_iff {a b : Record} (ha : (holdSortKey a).isSome = true)
    (hb : (holdSortKey b).isSome = true) :
    holdSortRel a b ↔ actualHoldOrder a b := by
  cases hA1 : a.isAvailable with
  | none => simp [holdSortKey, hA1] at ha
  | some av1 =>
    cases hA2 : a.placedDate with
    | none => simp [holdSortKey, hA1, hA2] at ha
    | some p1 =>
      cases hB1 : b.isAvailable with
      | none => simp [holdSortKey, hB1] at hb
      | some av2 =>
        cases hB2 : b.placedDate with
        | none => simp [holdSortKey, hB1, hB2] at hb
        | some p2 =>
          unfold holdSortRel actualHoldOrder holdKeyD
          rw [holdSortKey, holdSortKey, hA1, hA2, hB1, hB2]
          unfold pyTupleLe
          simp only [Option.getD_some, Bool.or_eq_true, Bool.and_eq_true,
            Bool.not_eq_true', beq_iff_eq, decide_eq_true_eq, neg_lt_neg_iff,
            neg_inj]
          rcases av1 <;> rcases av2 <;> simp [eq_comm]

theorem holdsSortRows_ok {hs out : List Record}
    (h : holdsSortRows hs = Except.ok out) :
    out.Perm hs ∧ out.Pairwise actualHoldOrder := by
  unfold holdsSortRows at h
  by_cases hall : hs.all (fun x => (holdSortKey x).isSome)
  · rw [if_pos hall] at h
    have hout : out = List.insertionSort holdSortRel hs := (Except.ok.inj h).symm
    subst hout
    refine ⟨List.perm_insertionSort _ _, ?_⟩
    have hsorted := List.sorted_insertionSort holdSortRel hs
    refine hsorted.imp_of_mem ?_
    intro a b hamem hbmem hrel
    have ha : (holdSortKey a).isSome = true :=
      List.all_eq_true.mp hall a (by simpa using hamem)
    have hb : (holdSortKey b).isSome = true :=
      List.all_eq_true.mp hall b (by simpa using hbmem)
    exact (holdSortRel_iff ha hb).mp hrel
  · rw [if_neg hall] at h
    exact Except.noConfusion h

theorem loansFilterRows_subset (env : Env) (lib : List LibraryBook) (flag : Bool)
    (rows : List Record) : subsetInv (loansFilterRows env lib flag rows).1 rows :=
  fun _ hr => (mem_loansFilterRows hr).1

theorem loansFilterOp_inv (env : Env) (lib : List LibraryBook) (s : LoansState) :
    subsetInv ((loansFilterOp env lib s).1).filtered ((loansFilterOp env lib s).1).rows := by
  unfold loansFilterOp
  exact loansFilterRows_subset env lib s.filterHide s.rows

theorem loansSync_inv (env : Env) (lib : List LibraryBook) (st : Option SyncedState)
    (s : LoansState) (hinv : subsetInv s.filtered s.rows) :
    subsetInv ((loansSync env lib st s).1).filtered ((loansSync env lib st s).1).rows := by
  unfold loansSync
  dsimp only
  cases hs : loansSortRows (st.getD {}).loans with
  | error e => exact hinv
  | ok sortedLoans => exact loansFilterOp_inv env lib _

theorem loansSetFilter_inv (env : Env) (lib : List LibraryBook) (value : Bool)
    (s : LoansState) (hinv : subsetInv s.filtered s.rows) :
    subsetInv ((loansSetFilter env lib value s).1).filtered
      ((loansSetFilter env lib value s).1).rows := by
  unfold loansSetFilter
  by_cases hv : value ≠ s.filterHide
  · rw [if_pos hv]; exact loansFilterOp_inv env lib _
  · rw [if_neg hv]; exact hinv

theorem removeRowsList_subset (row count : Nat) (l : List Record) :
    ∀ r ∈ removeRowsList row count l, r ∈ l := by
  intro r hr
  unfold removeRowsList at hr
  rcases List.mem_append.mp hr with h | h
  · exact List.take_subset _ _ h
  · exact List.drop_subset _ _ h

theorem loansRemoveRows_inv (row count : Nat) (s : LoansState)
    (hinv : subsetInv s.filtered s.rows) :
    subsetInv ((loansRemoveRows row count s).1).filtered
      ((loansRemoveRows row count s).1).rows :=
  fun r hr => hinv r (removeRowsList_subset row count s.filtered r hr)

theorem holdsFilterRows_subset (env : Env) (flag : Bool) (rows : List Record) :
    subsetInv (holdsFilterRows env flag rows) rows :=
  fun _ hr => (mem_holdsFilterRows.mp hr).1

theorem holdsFilterOp_inv (env : Env) (s : HoldsState) :
    subsetInv (holdsFilterOp env s).filtered (holdsFilterOp env s).rows :=
  holdsFilterRows_subset env s.filterHideUnavailable s.rows

theorem holdsSync_inv (env : Env) (st : Option SyncedState) (s : HoldsState)
    (hinv : subsetInv s.filtered s.rows) :
    subsetInv ((holdsSync env st s).1).filtered ((holdsSync env st s).1).rows := by
  unfold holdsSync
  dsimp only
  cases hs : holdsSortRows (st.getD {}).holds with
  | error e => exact hinv
  | ok sortedHolds => exact holdsFilterOp_inv env _

theorem holdsSetFilter_inv (env : Env) (value : Bool) (s : HoldsState)
    (hinv : subsetInv s.filtered s.rows) :
    subsetInv (holdsSetFilter env value s).filtered (holdsSetFilter env value s).rows := by
  unfold holdsSetFilter
  by_cases hv : value ≠ s.filterHideUnavailable
  · rw [if_pos hv]; exact holdsFilterOp_inv env _
  · rw [if_neg hv]; exact hinv

theorem holdsSetData_inv (row : Nat) (hold : Record) (role : Role) (s : HoldsState)
    (hinv : subsetInv s.filtered s.rows) (hmem : hold ∈ s.rows) :
    subsetInv ((holdsSetData row hold role s).1).filtered
      ((holdsSetData row hold role s).1).rows := by
  unfold holdsSetData
  by_cases hrole : role = Role.edit
  · rw [if_pos hrole]
    by_cases hrow : row < s.filtered.length
    · rw [if_pos hrow]
      intro r hr
      rcases List.mem_or_eq_of_mem_set hr with h | h
      · exact hinv r h
      · exact h ▸ hmem
    · rw [if_neg hrow]; exact hinv
  · rw [if_neg hrole]; exact hinv

theorem holdsRemoveRows_inv (row count : Nat) (s : HoldsState)
    (hinv : subsetInv s.filtered s.rows) :
    subsetInv ((holdsRemoveRows row count s).1).filtered
      ((holdsRemoveRows row count s).1).rows :=
  fun r hr => hinv r (removeRowsList_subset row count s.filtered r hr)

theorem cardsFilterOp_inv (s : CardsState) (hinv : subsetInv s.filtered s.rows) :
    subsetInv ((cardsFilterOp s).1).filtered ((cardsFilterOp s).1).rows := by
  unfold cardsFilterOp
  cases hs : cardsSortRows s.rows with
  | error e => exact hinv
  | ok sortedCards =>
    intro r hr
    unfold cardsSortRows at hs
    by_cases hall : s.rows.all (fun c => c.createDate.isSome)
    · rw [if_pos hall] at hs
      have : sortedCards = List.insertionSort cardSortRel s.rows := (Except.ok.inj hs).symm
      subst this
      simpa using hr
    · rw [if_neg hall] at hs
      exact Except.noConfusion hs

theorem cardsSync_ok_inv (st : Option SyncedState) (s s2 : CardsState)
    (h : cardsSync st s = (s2, none)) : subsetInv s2.filtered s2.rows := by
  unfold cardsSync at h
  cases hs : cardsSortRows (st.getD {}).cards with
  | error e =>
    rw [cardsFilterOp, hs] at h
    simp at h
  | ok sortedCards =>
    rw [cardsFilterOp, hs] at h
    simp only [Prod.mk.injEq] at h
    rcases h with ⟨h1, _⟩
    subst h1
    intro r hr
    unfold cardsSortRows at hs
    by_cases hall : (st.getD {}).cards.all (fun c => c.createDate.isSome)
    · rw [if_pos hall] at hs
      have : sortedCards = List.insertionSort cardSortRel (st.getD {}).cards :=
        (Except.ok.inj hs).symm
      subst this
      simpa using hr
    · rw [if_neg hall] at hs
      exact Except.noConfusion hs

theorem cardsRemoveRows_inv (row count : Nat) (s : CardsState)
    (hinv : subsetInv s.filtered s.rows) :
    subsetInv ((cardsRemoveRows row count s).1).filtered
      ((cardsRemoveRows row count s).1).rows :=
  fun r hr => hinv r (removeRowsList_subset row count s.filtered r hr)

theorem magsFilterOp_inv (env : Env) (lib : List LibraryBook) (s : MagsState) :
    subsetInv ((magsFilterOp env lib s).1).filtered
      ((magsFilterOp env lib s).1).rows := by
  unfold magsFilterOp
  rcases hf : magsFilterRows env lib s.loans s.filterHide s.rows with ⟨nr, f, e⟩
  have hsub := magsFilterRows_subset env lib s.loans s.filterHide s.rows
  rw [hf] at hsub
  exact hsub

theorem magsSync_inv (env : Env) (lib : List LibraryBook) (st : Option SyncedState)
    (s : MagsState) :
    subsetInv ((magsSync env lib st s).1).filtered ((magsSync env lib st s).1).rows :=
  magsFilterOp_inv env lib _

theorem magsSyncSubscriptions_inv (env : Env) (lib : List LibraryBook)
    (subscriptions : List Record) (s : MagsState) :
    subsetInv ((magsSyncSubscriptions env lib subscriptions s).1).filtered
      ((magsSyncSubscriptions env lib subscriptions s).1).rows :=
  magsFilterOp_inv env lib _

theorem magsSetFilter_inv (env : Env) (lib : List LibraryBook) (value : Bool)
    (s : MagsState) (hinv : subsetInv s.filtered s.rows) :
    subsetInv ((magsSetFilter env lib value s).1).filtered
      ((magsSetFilter env lib value s).1).rows := by
  unfold magsSetFilter
  by_cases hv : value ≠ s.filterHide
  · rw [if_pos hv]
    exact magsFilterOp_inv env lib _
  · rw [if_neg hv]
    exact hinv

theorem magsRemoveRows_inv (row count : Nat) (s : MagsState)
    (hinv : subsetInv s.filtered s.rows) :
    subsetInv ((magsRemoveRows row count s).1).filtered
      ((magsRemoveRows row count s).1).rows :=
  fun r hr => hinv r (removeRowsList_subset row count s.filtered r hr)

theorem bookInLibraryScan_cons_of_match {env : Env} {t1 t2 isbn asin : String}
    {b : LibraryBook} (l : List LibraryBook)
    (hmatch : loanMatchesBook env t1 t2 isbn asin b = true) :
    bookInLibraryScan env t1 t2 isbn asin (b :: l)
      = !(env.excludeEmptyBooks && b.formats.isEmpty) := by
  simp [bookInLibraryScan, hmatch]

theorem bookInLibraryScan_stable {env : Env} {t1 t2 isbn asin : String}
    {b : LibraryBook} (hmatch : loanMatchesBook env t1 t2 isbn asin b = true)
    (l1 l2 l3 : List LibraryBook) :
    bookInLibraryScan env t1 t2 isbn asin (l1 ++ b :: l2)
      = bookInLibraryScan env t1 t2 isbn asin (l1 ++ b :: l3) := by
  induction l1 with
  | nil =>
    rw [List.nil_append, List.nil_append, bookInLibraryScan_cons_of_match l2 hmatch,
      bookInLibraryScan_cons_of_match l3 hmatch]
  | cons x rest ih =>
    rw [List.cons_append, List.cons_append]
    by_cases hx : loanMatchesBook env t1 t2 isbn asin x = true
    · simp [bookInLibraryScan, hx]
    · simp only [Bool.not_eq_true] at hx
      simp [bookInLibraryScan, hx, ih]

theorem magBookScan_stable {env : Env} {q1 q2 : String} {b : LibraryBook}
    (hmatch : (env.icuLower b.title == q1 || env.icuLower b.title == q2) = true)
    (l1 l2 l3 : List LibraryBook) :
    magBookScan env q1 q2 (l1 ++ b :: l2) = magBookScan env q1 q2 (l1 ++ b :: l3) := by
  induction l1 with
  | nil => simp [magBookScan, hmatch]
  | cons x rest ih =>
    by_cases hx : (env.icuLower x.title == q1 || env.icuLower x.title == q2) = true
    · simp [magBookScan, hx]
    · simp only [Bool.not_eq_true] at hx
      simp [magBookScan, hx, ih]

theorem bookInLibraryScan_first_match {env : Env} {t1 t2 isbn asin : String}
    {b : LibraryBook} {l1 l2 : List LibraryBook}
    (hfirst : ∀ b2 ∈ l1, loanMatchesBook env t1 t2 isbn asin b2 = false)
    (hmatch : loanMatchesBook env t1 t2 isbn asin b = true) :
    bookInLibraryScan env t1 t2 isbn asin (l1 ++ b :: l2)
      = !(env.excludeEmptyBooks && b.formats.isEmpty) := by
  induction l1 with
  | nil => rw [List.nil_append, bookInLibraryScan_cons_of_match l2 hmatch]
  | cons x rest ih =>
    have hx := hfirst x (List.mem_cons_self _ _)
    rw [List.cons_append, bookInLibraryScan, if_neg (by simp [hx])]
    exact ih (fun b2 hb2 => hfirst b2 (List.mem_cons_of_mem x hb2))

theorem processLoan_skip_on_format_error {env : Env} {lib : List LibraryBook}
    {flag : Bool} {loan : Record}
    (h : env.getLoanFormat loan env.preferOpenFormats = Except.error ()) :
    processLoan env lib flag loan = Except.ok false := by
  unfold processLoan
  by_cases hv : loanVisible env loan
  · rw [if_neg (by simp [hv]), h]
  · rw [if_pos (by simp [hv])]

theorem processLoan_excluded {env : Env} {loan : Record} {fmt t1 t2 isbn asin : String}
    {l1 l2 : List LibraryBook} {b : LibraryBook}
    (hvis : loanVisible env loan = true)
    (hfmt : env.getLoanFormat loan env.preferOpenFormats = Except.ok fmt)
    (hkeys : loanTitlesKeys env loan fmt = Except.ok (t1, t2, isbn, asin))
    (hfirst : ∀ b2 ∈ l1, loanMatchesBook env t1 t2 isbn asin b2 = false)
    (hmatch : loanMatchesBook env t1 t2 isbn asin b = true)
    (hkeep : (env.excludeEmptyBooks && b.formats.isEmpty) = false) :
    processLoan env (l1 ++ b :: l2) true loan = Except.ok false := by
  unfold processLoan
  simp [hvis, hfmt, hkeys, Except.map, bookInLibraryScan_first_match hfirst hmatch,
    hkeep]

theorem processLoan_stable {env : Env} {flag : Bool} {loan : Record}
    {fmt t1 t2 isbn asin : String} {b : LibraryBook}
    (hfmt : env.getLoanFormat loan env.preferOpenFormats = Except.ok fmt)
    (hkeys : loanTitlesKeys env loan fmt = Except.ok (t1, t2, isbn, asin))
    (hmatch : loanMatchesBook env t1 t2 isbn asin b = true)
    (l1 l2 l3 : List LibraryBook) :
    processLoan env (l1 ++ b :: l2) flag loan
      = processLoan env (l1 ++ b :: l3) flag loan := by
  by_cases hv : loanVisible env loan
  · by_cases hf : flag
    · subst hf
      unfold processLoan
      simp [hv, hfmt, hkeys, Except.map, bookInLibraryScan_stable hmatch l1 l2 l3]
    · simp only [Bool.not_eq_true] at hf
      subst hf
      unfold processLoan
      simp [hv, hfmt]
  · simp only [Bool.not_eq_true] at hv
    unfold processLoan
    simp [hv]

theorem loansFilterRows_erase_skipped {env : Env} {lib : List LibraryBook}
    {flag : Bool} {loan : Record}
    (hskip : processLoan env lib flag loan = Except.ok false)
    (l1 l2 : List Record) :
    loansFilterRows env lib flag (l1 ++ loan :: l2)
      = loansFilterRows env lib flag (l1 ++ l2) := by
  induction l1 with
  | nil => rw [List.nil_append, List.nil_append, loansFilterRows, hskip]
  | cons r rest ih =>
    rw [List.cons_append, List.cons_append, loansFilterRows, loansFilterRows, ih]

theorem removeRowsList_length_eq {row count : Nat} {l : List Record}
    (h : row + count ≤ l.length) :
    (removeRowsList row count l).length = l.length - count := by
  unfold removeRowsList
  rw [List.length_append, List.length_take, List.length_drop]
  omega

theorem removeRowsList_get_lt {row count : Nat} {l : List Record} {i : Nat}
    (h : i < row) : (removeRowsList row count l)[i]? = l[i]? := by
  unfold removeRowsList
  by_cases hl : i < l.length
  · have ht : i < (List.take row l).length := by
      rw [List.length_take]; omega
    rw [List.getElem?_append_left ht, List.getElem?_take, if_pos h]
  · have h1 : (List.take row l ++ List.drop (row + count) l).length ≤ i := by
      rw [List.length_append, List.length_take, List.length_drop]; omega
    have h2 : l.length ≤ i := by omega
    rw [List.getElem?_eq_none h1, List.getElem?_eq_none h2]

theorem removeRowsList_get_ge {row count : Nat} {l : List Record} {i : Nat}
    (h : row ≤ i) : (removeRowsList row count l)[i]? = l[i + count]? := by
  unfold removeRowsList
  by_cases hrow : row ≤ l.length
  · have ht : (List.take row l).length ≤ i := by
      rw [List.length_take]; omega
    rw [List.getElem?_append_right ht, List.getElem?_drop]
    congr 1
    rw [List.length_take]
    omega
  · have h1 : (List.take row l ++ List.drop (row + count) l).length ≤ i := by
      rw [List.length_append, List.length_take, List.length_drop]; omega
    have h2 : l.length ≤ i + count := by omega
    rw [List.getElem?_eq_none h1, List.getElem?_eq_none h2]

/-! ## Claim theorems -/

/-- C5: a hold record is in `LibbyHoldsModel.filtered_rows` after
`filter_rows` iff it is among the synced rows and is a downloadable
ebook while the hide-ebooks preference is off, or a downloadable
magazine while the hide-magazines preference is off, and additionally
its `isAvailable` flag is true or the hide-unavailable-holds toggle is
off. -/
theorem C5_holds_filter_membership (env : Env) (flag : Bool) (rows : List Record)
    (h : Record) :
    h ∈ holdsFilterRows env flag rows ↔
      h ∈ rows
        ∧ ((env.isDownloadableEbookLoan h = true ∧ env.hideEbooks = false)
            ∨ (env.isDownloadableMagazineLoan h = true ∧ env.hideMagazines = false))
        ∧ (h.isAvailable = some true ∨ flag = false) := by
  rw [mem_holdsFilterRows]
  unfold holdVisible
  cases hA : h.isAvailable with
  | none => simp [hA]; tauto
  | some b => cases b <;> simp [hA] <;> tauto

/-- C6: a loan whose format classification raises (`ValueError` from
`get_loan_format`) is silently skipped by `LibbyLoansModel.filter_rows`:
filtering a row list containing it produces exactly the same result
(including the same error status) as filtering the list without it, and
the loan is absent from the filtered rows. -/
theorem C6_format_error_silently_excluded (env : Env) (lib : List LibraryBook)
    (flag : Bool) (loan : Record) (l1 l2 : List Record)
    (herr : env.getLoanFormat loan env.preferOpenFormats = Except.error ()) :
    loansFilterRows env lib flag (l1 ++ loan :: l2)
        = loansFilterRows env lib flag (l1 ++ l2)
      ∧ loan ∉ (loansFilterRows env lib flag (l1 ++ loan :: l2)).1 := by
  have hskip := @processLoan_skip_on_format_error env lib flag loan herr
  refine ⟨loansFilterRows_erase_skipped hskip l1 l2, ?_⟩
  apply not_mem_loansFilterRows
  rw [hskip]
  simp

/-- Witness for C6 at a concrete environment whose classifier always
raises. -/
theorem C6_witness :
    loansFilterRows errorFormatEnv [] true [duneLoan]
        = loansFilterRows errorFormatEnv [] true []
      ∧ duneLoan ∉ (loansFilterRows errorFormatEnv [] true [duneLoan]).1 :=
  C6_format_error_silently_excluded errorFormatEnv [] true duneLoan [] [] rfl

/-- C4: matching against the local library short-circuits at the first
matching book: once a book `b` matches, no book after `b` influences
the `book_in_library` scan of the loans model, the title scan of the
magazines model, or the resulting per-loan inclusion decision of
`LibbyLoansModel.filter_rows`. -/
theorem C4_first_match_short_circuit :
    (∀ (env : Env) (t1 t2 isbn asin : String) (b : LibraryBook)
        (l1 l2 l3 : List LibraryBook),
        loanMatchesBook env t1 t2 isbn asin b = true →
        bookInLibraryScan env t1 t2 isbn asin (l1 ++ b :: l2)
          = bookInLibraryScan env t1 t2 isbn asin (l1 ++ b :: l3))
      ∧ (∀ (env : Env) (q1 q2 : String) (b : LibraryBook) (l1 l2 l3 : List LibraryBook),
          (env.icuLower b.title == q1 || env.icuLower b.title == q2) = true →
          magBookScan env q1 q2 (l1 ++ b :: l2) = magBookScan env q1 q2 (l1 ++ b :: l3))
      ∧ (∀ (env : Env) (flag : Bool) (loan : Record) (fmt t1 t2 isbn asin : String)
          (b : LibraryBook) (l1 l2 l3 : List LibraryBook),
          env.getLoanFormat loan env.preferOpenFormats = Except.ok fmt →
          loanTitlesKeys env loan fmt = Except.ok (t1, t2, isbn, asin) →
          loanMatchesBook env t1 t2 isbn asin b = true →
          processLoan env (l1 ++ b :: l2) flag loan
            = processLoan env (l1 ++ b :: l3) flag loan) :=
  ⟨fun _ _ _ _ _ _ l1 l2 l3 hm => bookInLibraryScan_stable hm l1 l2 l3,
   fun _ _ _ _ l1 l2 l3 hm => magBookScan_stable hm l1 l2 l3,
   fun _ _ _ _ _ _ _ _ _ l1 l2 l3 hfmt hkeys hm =>
     processLoan_stable hfmt hkeys hm l1 l2 l3⟩

/-- Witness for C4: the per-loan decision is unchanged when everything
after the first matching book is replaced. -/
theorem C4_witness :
    processLoan sampleEnv (epubDuneBook :: [emptyDuneBook]) true duneLoan
      = processLoan sampleEnv [epubDuneBook] true duneLoan :=
  C4_first_match_short_circuit.2.2 sampleEnv true duneLoan "EPUB" "dune" "dune" "" ""
    epubDuneBook [] [emptyDuneBook] [] rfl (by rfl) (by decide)

/-- C3 (amended): for a visible loan whose format classification
succeeds, when the hide-already-owned filter is active and the first
library book matching the loan (by lowered title with or without
subtitle, or by ISBN/ASIN) is one whose title matches and that has a
downloadable format (or the exclude-empty-books preference is off),
the loan is absent from `filtered_rows` after `filter_rows`. -/
theorem C3_owned_loan_excluded (env : Env) (loan : Record)
    (fmt t1 t2 isbn asin : String) (l1 l2 : List LibraryBook) (b : LibraryBook)
    (rows : List Record)
    (hvis : loanVisible env loan = true)
    (hfmt : env.getLoanFormat loan env.preferOpenFormats = Except.ok fmt)
    (hkeys : loanTitlesKeys env loan fmt = Except.ok (t1, t2, isbn, asin))
    (hfirst : ∀ b2 ∈ l1, loanMatchesBook env t1 t2 isbn asin b2 = false)
    (htitle : env.icuLower b.title = t1 ∨ env.icuLower b.title = t2)
    (hkeep : b.formats ≠ [] ∨ env.excludeEmptyBooks = false) :
    loan ∉ (loansFilterRows env (l1 ++ b :: l2) true rows).1 := by
  have hmatch : loanMatchesBook env t1 t2 isbn asin b = true := by
    unfold loanMatchesBook
    rcases htitle with h | h <;> simp [h]
  have hkeep2 : (env.excludeEmptyBooks && b.formats.isEmpty) = false := by
    rcases hkeep with h | h
    · simp [List.isEmpty_iff, h]
    · simp [h]
  apply not_mem_loansFilterRows
  rw [processLoan_excluded hvis hfmt hkeys hfirst hmatch hkeep2]
  simp

/-- Witness for C3 (amended) on concrete data: the only library book is
a matching title with an EPUB format, so the loan is hidden. -/
theorem C3_witness :
    duneLoan ∉ (loansFilterRows sampleEnv [epubDuneBook] true [duneLoan]).1 :=
  C3_owned_loan_excluded sampleEnv duneLoan "EPUB" "dune" "dune" "" "" [] []
    epubDuneBook [duneLoan] (by decide) rfl (by rfl) (by simp)
    (Or.inl (by decide)) (Or.inl (by decide))

/-- Counterexample to C3 as stated: with the exclude-empty-books
preference on, a library that lists an empty `"dune"` book before an
EPUB `"dune"` book satisfies the claim's hypotheses (some matching
library book has a downloadable format), yet the loan stays in
`filtered_rows`, because the scan stops at the first matching book,
which is empty. -/
theorem C3_counterexample :
    loanVisible sampleEnv duneLoan = true
      ∧ sampleEnv.getLoanFormat duneLoan sampleEnv.preferOpenFormats = Except.ok "EPUB"
      ∧ loanTitlesKeys sampleEnv duneLoan "EPUB" = Except.ok ("dune", "dune", "", "")
      ∧ sampleEnv.icuLower epubDuneBook.title = "dune"
      ∧ epubDuneBook.formats ≠ []
      ∧ sampleEnv.excludeEmptyBooks = true
      ∧ duneLoan ∈ (loansFilterRows sampleEnv [emptyDuneBook, epubDuneBook] true
          [duneLoan]).1 := by
  refine ⟨by decide, rfl, by rfl, by decide, by decide, by decide, by decide⟩

/-- C2 (amended): a successful `LibbyHoldsModel.sync` leaves `_rows` a
permutation of the synced holds, ordered with available holds before
unavailable ones; among holds with equal availability the one with the
shorter `estimatedWaitDays` (missing treated as 9999) comes first; among
holds equal on both, the one with the later `placedDate` comes first. -/
theorem C2_holds_sync_order (env : Env) (st : SyncedState) (s s2 : HoldsState)
    (h : holdsSync env (some st) s = (s2, none)) :
    s2.rows.Perm st.holds ∧ s2.rows.Pairwise actualHoldOrder := by
  unfold holdsSync at h
  dsimp only [Option.getD_some] at h
  cases hs : holdsSortRows st.holds with
  | error e =>
    rw [hs] at h
    simp at h
  | ok out =>
    rw [hs] at h
    simp only [Prod.mk.injEq] at h
    rcases h with ⟨h1, _⟩
    subst h1
    have hrows : (holdsFilterOp env
        { cards := st.cards, libraries := st.libraries, rows := out,
          filtered := s.filtered,
          filterHideUnavailable := s.filterHideUnavailable }).rows = out := rfl
    rw [hrows]
    exact holdsSortRows_ok hs

/-- Witness for C2 (amended) on a two-hold synced state. -/
theorem C2_witness :
    ((holdsSync sampleEnv (some { holds := [holdLongWait, holdShortWait] })
          {}).1).rows.Perm [holdLongWait, holdShortWait]
      ∧ ((holdsSync sampleEnv (some { holds := [holdLongWait, holdShortWait] })
          {}).1).rows.Pairwise actualHoldOrder :=
  C2_holds_sync_order sampleEnv { holds := [holdLongWait, holdShortWait] } {} _
    (by decide)

/-- Counterexample to C2 as stated: two available holds with equal
placement dates and waits 10 and 5 are ordered shorter-wait-first by
`sync`, violating the claimed longer-wait-first order. -/
theorem C2_counterexample :
    holdsSortRows [holdLongWait, holdShortWait]
        = Except.ok [holdShortWait, holdLongWait]
      ∧ ¬ List.Pairwise claimHoldOrder [holdShortWait, holdLongWait] := by
  refine ⟨by decide, by decide⟩

/-- C7 (amended): missing fields read through defaulted lookups are
tolerated with fallbacks — the holds sort succeeds whenever every hold
has the `isAvailable` and `placedDate` keys, even with
`estimatedWaitDays` missing (treated as 9999); a missing
`firstCreatorName` displays as the empty string; a hold without
`isAvailable` is treated as unavailable by `filter_rows` — but the
holds sort key reads `isAvailable` and `placedDate` by direct
subscript, and the sort fails with a `KeyError` when a hold lacks one
of them instead of substituting a default. -/
theorem C7_default_fallbacks :
    (∀ hs : List Record,
        (∀ h ∈ hs, h.isAvailable.isSome = true ∧ h.placedDate.isSome = true) →
        (holdsSortRows hs).isOk = true)
      ∧ (∀ h : Record,
          holdSortKey { h with estimatedWaitDays := none }
            = holdSortKey { h with estimatedWaitDays := some 9999 })
      ∧ (∀ (env : Env) (s : LoansState) (row : Nat), row < s.filtered.length →
          (s.filtered.getD row default).firstCreatorName = none →
          loansData env s row 1 Role.display = Except.ok (CellValue.str ""))
      ∧ (∀ (env : Env) (rows : List Record) (h : Record), h.isAvailable = none →
          h ∉ holdsFilterRows env true rows)
      ∧ (∀ hs : List Record, (∃ h ∈ hs, (holdSortKey h).isSome = false) →
          holdsSortRows hs = Except.error PyErr.keyError) := by
  refine ⟨?_, ?_, ?_, ?_, ?_⟩
  · intro hs hfields
    unfold holdsSortRows
    rw [if_pos]
    · rfl
    · exact List.all_eq_true.mpr fun x hx =>
        holdSortKey_isSome_iff.mpr ⟨(hfields x hx).1, (hfields x hx).2⟩
  · intro h
    unfold holdSortKey
    cases h.isAvailable <;> cases h.placedDate <;> rfl
  · intro env s row hrow hname
    unfold loansData
    rw [if_neg (by omega)]
    rw [List.getD_eq_getElem?_getD] at hname
    simp [hname, strTruthy, pure, Except.pure]
  · intro env rows h hA
    intro hmem
    have := (mem_holdsFilterRows.mp hmem).2.2
    rw [hA] at this
    simp at this
  · intro hs hbad
    unfold holdsSortRows
    rw [if_neg]
    simp only [List.all_eq_true, not_forall]
    rcases hbad with ⟨h, hm, hk⟩
    exact ⟨h, hm, by simp [hk]⟩

/-- Witness for C7 (amended) on concrete holds. -/
theorem C7_witness :
    (holdsSortRows [holdShortWait, holdLongWait]).isOk = true
      ∧ holdsSortRows [noAvailabilityHold] = Except.error PyErr.keyError :=
  ⟨C7_default_fallbacks.1 [holdShortWait, holdLongWait] (by decide),
   C7_default_fallbacks.2.2.2.2 [noAvailabilityHold] ⟨noAvailabilityHold, by decide⟩⟩

/-- Counterexample to C7 as stated: `LibbyHoldsModel.sync` fails with a
`KeyError` on a hold record that merely lacks the `isAvailable` key
instead of substituting a default. -/
theorem C7_counterexample :
    (holdsSync sampleEnv (some { holds := [noAvailabilityHold] }) {}).2
      = some PyErr.keyError := by
  decide

/-- C8: with the synced rows, library and preferences unchanged, on a
state whose `filtered_rows` is consistent with an active
hide-already-owned filter, toggling the filter off and then back on
restores exactly the same `filtered_rows` (and leaves `_rows` and the
flag as they were). -/
theorem C8_toggle_roundtrip (env : Env) (lib : List LibraryBook) (s : LoansState)
    (hflag : s.filterHide = true)
    (hcons : s.filtered = (loansFilterRows env lib true s.rows).1) :
    ((loansSetFilter env lib true ((loansSetFilter env lib false s).1)).1).filtered
        = s.filtered
      ∧ ((loansSetFilter env lib true ((loansSetFilter env lib false s).1)).1).filterHide
        = s.filterHide
      ∧ ((loansSetFilter env lib true ((loansSetFilter env lib false s).1)).1).rows
        = s.rows := by
  unfold loansSetFilter loansFilterOp
  simp [hflag, hcons]

/-- Witness for C8 on a concrete consistent state. -/
theorem C8_witness :
    ((loansSetFilter sampleEnv [emptyDuneBook] true
          ((loansSetFilter sampleEnv [emptyDuneBook] false sampleLoansState).1)).1).filtered
        = sampleLoansState.filtered
      ∧ ((loansSetFilter sampleEnv [emptyDuneBook] true
          ((loansSetFilter sampleEnv [emptyDuneBook] false sampleLoansState).1)).1).filterHide
        = sampleLoansState.filterHide
      ∧ ((loansSetFilter sampleEnv [emptyDuneBook] true
          ((loansSetFilter sampleEnv [emptyDuneBook] false sampleLoansState).1)).1).rows
        = sampleLoansState.rows :=
  C8_toggle_roundtrip sampleEnv [emptyDuneBook] sampleLoansState rfl rfl

/-- C9: `removeRows(row, count, _)` always returns `True`, leaves the
raw `_rows` untouched, and removes exactly the filtered entries at
indices `row` … `row+count-1`: the result is
`filtered[:row] ++ filtered[row+count:]`, earlier indices are
unchanged, later indices shift down by `count`, and (when the range is
in bounds) the length drops by `count`; since `_rows` is unchanged, a
subsequent `filter_rows` recomputes exactly what it would have from the
pre-removal state.  The same body acts on every model. -/
theorem C9_removeRows (s : LoansState) (row count : Nat) :
    (loansRemoveRows row count s).2 = true
      ∧ ((loansRemoveRows row count s).1).rows = s.rows
      ∧ ((loansRemoveRows row count s).1).filtered
          = s.filtered.take row ++ s.filtered.drop (row + count)
      ∧ (row + count ≤ s.filtered.length →
          ((loansRemoveRows row count s).1).filtered.length
            = s.filtered.length - count)
      ∧ (∀ i, i < row →
          ((loansRemoveRows row count s).1).filtered[i]? = s.filtered[i]?)
      ∧ (∀ i, row ≤ i →
          ((loansRemoveRows row count s).1).filtered[i]? = s.filtered[i + count]?)
      ∧ (∀ (env : Env) (lib : List LibraryBook),
          loansFilterRows env lib ((loansRemoveRows row count s).1).filterHide
              ((loansRemoveRows row count s).1).rows
            = loansFilterRows env lib s.filterHide s.rows)
      ∧ (∀ hs : HoldsState, (holdsRemoveRows row count hs).2 = true
          ∧ ((holdsRemoveRows row count hs).1).rows = hs.rows
          ∧ ((holdsRemoveRows row count hs).1).filtered
              = removeRowsList row count hs.filtered)
      ∧ (∀ cs : CardsState, (cardsRemoveRows row count cs).2 = true
          ∧ ((cardsRemoveRows row count cs).1).rows = cs.rows)
      ∧ (∀ ms : MagsState, (magsRemoveRows row count ms).2 = true
          ∧ ((magsRemoveRows row count ms).1).rows = ms.rows) := by
  refine ⟨rfl, rfl, rfl, ?_, ?_, ?_, fun env lib => rfl,
    fun hs => ⟨rfl, rfl, rfl⟩, fun cs => ⟨rfl, rfl⟩, fun ms => ⟨rfl, rfl⟩⟩
  · intro h
    exact removeRowsList_length_eq h
  · intro i hi
    exact removeRowsList_get_lt hi
  · intro i hi
    exact removeRowsList_get_ge hi

/-- Witness for C9 at a concrete state. -/
theorem C9_witness :
    ((loansRemoveRows 0 1 sampleLoansState).1).filtered.length
        = sampleLoansState.filtered.length - 1
      ∧ ((loansRemoveRows 0 1 sampleLoansState).1).filtered[0]?
        = sampleLoansState.filtered[1]? :=
  ⟨(C9_removeRows sampleLoansState 0 1).2.2.2.1 (by decide),
   (C9_removeRows sampleLoansState 0 1).2.2.2.2.2.1 0 (by decide)⟩

/-- C10: for all four models, a `data(index, role)` query whose row is
at or beyond the number of filtered rows returns `None` without
failing, for every role and column. -/
theorem C10_out_of_range_returns_none (env : Env) (sl : LoansState) (sh : HoldsState)
    (sc : CardsState) (sm : MagsState) (row col : Nat) (role : Role) :
    (row ≥ sl.filtered.length →
        loansData env sl row col role = Except.ok CellValue.none)
      ∧ (row ≥ sh.filtered.length →
          holdsData env sh row col role = Except.ok CellValue.none)
      ∧ (row ≥ sc.filtered.length →
          cardsData env sc row col role = Except.ok CellValue.none)
      ∧ (row ≥ sm.filtered.length →
          magsData env sm row col role = Except.ok CellValue.none) := by
  refine ⟨?_, ?_, ?_, ?_⟩
  · intro h
    unfold loansData
    rw [if_pos h]
    rfl
  · intro h
    unfold holdsData
    rw [if_pos h]
    rfl
  · intro h
    unfold cardsData
    rw [if_pos h]
    rfl
  · intro h
    unfold magsData
    rw [if_pos h]
    rfl

/-- Witness for C10 at empty model states. -/
theorem C10_witness :
    loansData sampleEnv {} 0 0 Role.display = Except.ok CellValue.none
      ∧ holdsData sampleEnv {} 0 0 Role.display = Except.ok CellValue.none
      ∧ cardsData sampleEnv {} 0 0 Role.display = Except.ok CellValue.none
      ∧ magsData sampleEnv {} 0 0 Role.display = Except.ok CellValue.none :=
  ⟨(C10_out_of_range_returns_none sampleEnv {} {} {} {} 0 0 Role.display).1
      (by decide),
   (C10_out_of_range_returns_none sampleEnv {} {} {} {} 0 0 Role.display).2.1
      (by decide),
   (C10_out_of_range_returns_none sampleEnv {} {} {} {} 0 0 Role.display).2.2.1
      (by decide),
   (C10_out_of_range_returns_none sampleEnv {} {} {} {} 0 0 Role.display).2.2.2
      (by decide)⟩

/-- C1 (amended): for every model, every record in `filtered_rows` is a
member of the raw synced `_rows`, and this subset relation is preserved
by `sync`, `filter_rows`, every `set_filter_*` toggle and `removeRows`,
error post-states included (a failing filter leaves an empty or prefix
`filtered_rows` whose records are still rows), except that a cards sync
that fails while sorting replaces `_rows` but keeps the stale
`filtered_rows`; the holds model's `setData` single-row replace
preserves it exactly when the replacement record is itself among the
synced rows. -/
theorem C1_filtered_subset_of_rows :
    (∀ (env : Env) (lib : List LibraryBook) (st : Option SyncedState) (s : LoansState),
        subsetInv s.filtered s.rows →
        subsetInv ((loansSync env lib st s).1).filtered ((loansSync env lib st s).1).rows)
      ∧ (∀ (env : Env) (lib : List LibraryBook) (s : LoansState),
          subsetInv ((loansFilterOp env lib s).1).filtered
            ((loansFilterOp env lib s).1).rows)
      ∧ (∀ (env : Env) (lib : List LibraryBook) (v : Bool) (s : LoansState),
          subsetInv s.filtered s.rows →
          subsetInv ((loansSetFilter env lib v s).1).filtered
            ((loansSetFilter env lib v s).1).rows)
      ∧ (∀ (row count : Nat) (s : LoansState), subsetInv s.filtered s.rows →
          subsetInv ((loansRemoveRows row count s).1).filtered
            ((loansRemoveRows row count s).1).rows)
      ∧ (∀ (env : Env) (st : Option SyncedState) (s : HoldsState),
          subsetInv s.filtered s.rows →
          subsetInv ((holdsSync env st s).1).filtered ((holdsSync env st s).1).rows)
      ∧ (∀ (env : Env) (s : HoldsState),
          subsetInv (holdsFilterOp env s).filtered (holdsFilterOp env s).rows)
      ∧ (∀ (env : Env) (v : Bool) (s : HoldsState), subsetInv s.filtered s.rows →
          subsetInv (holdsSetFilter env v s).filtered (holdsSetFilter env v s).rows)
      ∧ (∀ (row count : Nat) (s : HoldsState), subsetInv s.filtered s.rows →
          subsetInv ((holdsRemoveRows row count s).1).filtered
            ((holdsRemoveRows row count s).1).rows)
      ∧ (∀ (row : Nat) (hold : Record) (role : Role) (s : HoldsState),
          subsetInv s.filtered s.rows → hold ∈ s.rows →
          subsetInv ((holdsSetData row hold role s).1).filtered
            ((holdsSetData row hold role s).1).rows)
      ∧ (∀ (st : Option SyncedState) (s s2 : CardsState),
          cardsSync st s = (s2, none) → subsetInv s2.filtered s2.rows)
      ∧ (∀ s : CardsState, subsetInv s.filtered s.rows →
          subsetInv ((cardsFilterOp s).1).filtered ((cardsFilterOp s).1).rows)
      ∧ (∀ (row count : Nat) (s : CardsState), subsetInv s.filtered s.rows →
          subsetInv ((cardsRemoveRows row count s).1).filtered
            ((cardsRemoveRows row count s).1).rows)
      ∧ (∀ (env : Env) (lib : List LibraryBook) (st : Option SyncedState)
          (s : MagsState),
          subsetInv ((magsSync env lib st s).1).filtered
            ((magsSync env lib st s).1).rows)
      ∧ (∀ (env : Env) (lib : List LibraryBook) (subscriptions : List Record)
          (s : MagsState),
          subsetInv ((magsSyncSubscriptions env lib subscriptions s).1).filtered
            ((magsSyncSubscriptions env lib subscriptions s).1).rows)
      ∧ (∀ (env : Env) (lib : List LibraryBook) (s : MagsState),
          subsetInv ((magsFilterOp env lib s).1).filtered
            ((magsFilterOp env lib s).1).rows)
      ∧ (∀ (env : Env) (lib : List LibraryBook) (v : Bool) (s : MagsState),
          subsetInv s.filtered s.rows →
          subsetInv ((magsSetFilter env lib v s).1).filtered
            ((magsSetFilter env lib v s).1).rows)
      ∧ (∀ (row count : Nat) (s : MagsState), subsetInv s.filtered s.rows →
          subsetInv ((magsRemoveRows row count s).1).filtered
            ((magsRemoveRows row count s).1).rows) :=
  ⟨loansSync_inv, loansFilterOp_inv, loansSetFilter_inv, loansRemoveRows_inv,
   holdsSync_inv, holdsFilterOp_inv, holdsSetFilter_inv, holdsRemoveRows_inv,
   holdsSetData_inv, cardsSync_ok_inv, fun s => cardsFilterOp_inv s,
   cardsRemoveRows_inv, magsSync_inv, magsSyncSubscriptions_inv,
   magsFilterOp_inv, magsSetFilter_inv, magsRemoveRows_inv⟩

/-- Witness for C1 (amended): a concrete in-rows `setData` replace and a
concrete sync both keep the subset invariant. -/
theorem C1_witness :
    subsetInv ((holdsSetData 0 sampleHoldA Role.edit sampleHoldsState).1).filtered
        ((holdsSetData 0 sampleHoldA Role.edit sampleHoldsState).1).rows
      ∧ subsetInv ((holdsSync sampleEnv (some { holds := [sampleHoldA, sampleHoldB] })
          {}).1).filtered
        ((holdsSync sampleEnv (some { holds := [sampleHoldA, sampleHoldB] }) {}).1).rows :=
  ⟨C1_filtered_subset_of_rows.2.2.2.2.2.2.2.2.1 0 sampleHoldA Role.edit
      sampleHoldsState (by decide) (by decide),
   C1_filtered_subset_of_rows.2.2.2.2.1 sampleEnv
      (some { holds := [sampleHoldA, sampleHoldB] }) {} (by decide)⟩

/-- Counterexample to C1 as stated: the holds `setData` replace puts a
record that is not among `_rows` into `filtered_rows`, and a cards sync
that fails while sorting (a card without `createDate`) replaces `_rows`
but keeps the stale `filtered_rows`; in both end states the filtered
rows are no longer a subset of the synced rows. -/
theorem C1_counterexample :
    subsetInv sampleHoldsState.filtered sampleHoldsState.rows
      ∧ (holdsSetData 0 sampleHoldB Role.edit sampleHoldsState).2 = none
      ∧ ¬ subsetInv ((holdsSetData 0 sampleHoldB Role.edit sampleHoldsState).1).filtered
          ((holdsSetData 0 sampleHoldB Role.edit sampleHoldsState).1).rows
      ∧ subsetInv cardsStaleState.filtered cardsStaleState.rows
      ∧ ¬ subsetInv ((cardsSync (some { cards := [badCard] }) cardsStaleState).1).filtered
          ((cardsSync (some { cards := [badCard] }) cardsStaleState).1).rows := by
  refine ⟨by decide, by decide, by decide, by decide, by decide⟩
